import Mathlib

/-!
Shallow embedding of the sec-telegram-bot core (filing discovery, durable
analysis queue, quota-gated drain loop, prompt building, Telegram message
rendering) together with proofs settling the frozen claims.

Conventions of the embedding:
* Python strings are Lean `String` values; `len`/slicing are length and
  `List.take` over `String.data` (both count Unicode code points, as Python does).
* `datetime` values are reduced to the data the code inspects: the quota logic
  only compares calendar dates and stores "now", so dates are natural numbers
  (a day index); row timestamps are a logical clock (a natural number) that the
  caller advances, mirroring the strictly increasing wall clock.
* Database tables are lists of rows; every `db_manager` operation is one
  transaction (one `get_db_connection` block) and is modelled as one pure
  state-to-state function.  `get_db_connection` swallows `psycopg.Error`
  (it rolls back and does not re-raise), so a SQL-level failure such as a
  unique-key violation makes the operation a committed no-op; any other
  exception is re-raised.
* Python exceptions are an explicit error type; fallible code returns `Except`.
* External collaborators (the SEC extraction service, the Gemini API call, the
  Telegram per-recipient send) are inputs: their outcomes are parameters of the
  functions that await them, exactly at the call sites where the source awaits
  them.
-/

namespace SecBot

/-- Python exceptions that the embedded code can raise. -/
inductive PyErr where
  | attributeError (attr : String)
  | typeError (msg : String)
  | valueError (msg : String)
  | runtimeError (msg : String)
  | indexError (msg : String)
deriving Repr, DecidableEq

/-- AnalysisStatus enum from src/configs/types.py (lines 42-49).
Its only members are PENDING, COMPLETED and FAILED. -/
inductive AnalysisStatus where
  | PENDING
  | COMPLETED
  | FAILED
deriving Repr, DecidableEq

/-- String value of an AnalysisStatus member (`.value`, also `__str__`). -/
def AnalysisStatus.value : AnalysisStatus → String
  | .PENDING => "PENDING"
  | .COMPLETED => "COMPLETED"
  | .FAILED => "FAILED"

/-- Attribute lookup `AnalysisStatus.<name>` on the enum class.  Returns `none`
for any name that is not a member, in which case Python raises
`AttributeError`.  In particular `AnalysisStatus.member? "PERMANENT_FAIL" = none`:
bg_task.py line 69 reads `AnalysisStatus.PERMANENT_FAIL.value`, an attribute
that src/configs/types.py never defines. -/
def AnalysisStatus.member? : String → Option AnalysisStatus
  | "PENDING" => some .PENDING
  | "COMPLETED" => some .COMPLETED
  | "FAILED" => some .FAILED
  | _ => none

/-- Integer-valued settings of src/configs/config.py that the embedded code
reads, with the defaults the file supplies to `os.environ.get`. -/
structure Config where
  GEMINI_RPM_LIMIT : Nat := 2
  GEMINI_DAILY_LIMIT : Nat := 50
  DISCOVER_FILING_AMOUNT : Nat := 3
deriving Repr, DecidableEq

/-- Attribute lookup `config.<name>` on the configs.config module, restricted to
the integer attributes the background task reads.  src/configs/config.py defines
`GEMINI_RPM_LIMIT`, `GEMINI_DAILY_LIMIT` and `DISCOVER_FILING_AMOUNT`, but it
defines no `MAX_RETRY_LIMIT`, so the lookup bg_task.py line 67 performs
(`config.MAX_RETRY_LIMIT`) yields `none`, which in Python raises
`AttributeError`. -/
def Config.attr? (cfg : Config) : String → Option Nat
  | "GEMINI_RPM_LIMIT" => some cfg.GEMINI_RPM_LIMIT
  | "GEMINI_DAILY_LIMIT" => some cfg.GEMINI_DAILY_LIMIT
  | "DISCOVER_FILING_AMOUNT" => some cfg.DISCOVER_FILING_AMOUNT
  | _ => none

/-- Value of the `objective_facts` key of a Gemini analysis dict: the model may
return a JSON array or (defensively handled in telegram_helper) a bare string. -/
inductive FactsVal where
  | str (s : String)
  | list (l : List String)
deriving Repr, DecidableEq

/-- Parsed Gemini analysis JSON object.  `none` fields model absent dict keys
(the renderer reads every field through `dict.get` with a default). -/
structure AnalysisDict where
  executive_summary : Option String := none
  objective_facts : Option FactsVal := none
  positive_signals : Option String := none
  potential_risks : Option String := none
  overall_opinion : Option String := none
deriving Repr, DecidableEq

/-- FilingInfo dataclass from src/configs/types.py (lines 52-68). -/
structure FilingInfo where
  accession_number : String
  ticker : String
  filing_type : String
  filing_date : String
  filing_url : String
  status : String
  gemini_analysis : Option AnalysisDict := none
  retry_count : Nat := 0
deriving Repr, DecidableEq

/-- Keyword arguments of a `FilingInfo(...)` constructor call: `some` marks an
argument the call site passes.  `gemini_analysis` and `retry_count` have
dataclass defaults; the six other fields are required. -/
structure FilingInfoKwargs where
  accession_number : Option String := none
  ticker : Option String := none
  filing_type : Option String := none
  filing_date : Option String := none
  filing_url : Option String := none
  status : Option String := none
  gemini_analysis : Option (Option AnalysisDict) := none
  retry_count : Option Nat := none

/-- Semantics of calling the `FilingInfo` dataclass constructor: omitting any
of the six required fields raises `TypeError`, the fields with defaults fall
back to `None` and `0`. -/
def mkFilingInfo (k : FilingInfoKwargs) : Except PyErr FilingInfo :=
  match k.accession_number, k.ticker, k.filing_type, k.filing_url, k.status with
  | some a, some t, some ft, some fu, some st =>
      match k.filing_date with
      | some fd =>
          .ok { accession_number := a, ticker := t, filing_type := ft,
                filing_date := fd, filing_url := fu, status := st,
                gemini_analysis := k.gemini_analysis.getD none,
                retry_count := k.retry_count.getD 0 }
      | none =>
          .error (.typeError
            "FilingInfo.__init__() missing 1 required positional argument: \x27filing_date\x27")
  | _, _, _, _, _ =>
      .error (.typeError "FilingInfo.__init__() missing required arguments")

/-- Row of the `analysis_queue` table.  Schema (db_manager.py `setup_database`,
lines 88-95): accession_number (primary key), ticker, filing_type, filing_url,
status, last_modified_at.  There is no retry-count column and no filing-date
column. -/
structure QueueRow where
  accession_number : String
  ticker : String
  filing_type : String
  filing_url : String
  status : String
  last_modified_at : Nat
deriving Repr, DecidableEq

/-- Row of the append-only `analysis_archive` table (primary key
accession_number). -/
structure ArchiveRow where
  accession_number : String
  ticker : String
  filing_type : String
  filing_url : String
  gemini_analysis : Option AnalysisDict
  analyzed_at : Nat
deriving Repr, DecidableEq

/-- Singleton row of `daily_quota_tracker`: the date the count belongs to and
the request count. -/
structure QuotaRow where
  quota_date : Nat
  request_count : Nat
deriving Repr, DecidableEq

/-- Row of the `latest_filings` watermark table (primary key ticker). -/
structure WatermarkRow where
  ticker : String
  last_accession_number : String
  last_filing_type : String
deriving Repr, DecidableEq

/-- State of the persistent store used by the drain loop and discovery. -/
structure DBState where
  queue : List QueueRow
  archive : List ArchiveRow
  quota : QuotaRow
deriving Repr, DecidableEq

/-- db_manager.update_analysis_queue (lines 191-204): INSERT with
`ON CONFLICT(accession_number) DO UPDATE SET status, last_modified_at`.
On conflict only status and the timestamp change; ticker, filing_type and
filing_url stay as created.  `now` is the `datetime.now(timezone.utc)` the
function passes for `last_modified_at`. -/
def update_analysis_queue (t : List QueueRow) (job : FilingInfo) (now : Nat) :
    List QueueRow :=
  if t.any (fun r => r.accession_number = job.accession_number) then
    t.map (fun r =>
      if r.accession_number = job.accession_number then
        { r with status := job.status, last_modified_at := now }
      else r)
  else
    t ++ [{ accession_number := job.accession_number, ticker := job.ticker,
            filing_type := job.filing_type, filing_url := job.filing_url,
            status := job.status, last_modified_at := now }]

/-- Stable insertion of a row into a list ascending by `last_modified_at`. -/
def insertByTimestamp (r : QueueRow) : List QueueRow → List QueueRow
  | [] => [r]
  | x :: xs =>
      if r.last_modified_at < x.last_modified_at then r :: x :: xs
      else x :: insertByTimestamp r xs

/-- Stable ascending sort by `last_modified_at` (the `ORDER BY
last_modified_at ASC` of get_pending_jobs). -/
def sortByTimestamp : List QueueRow → List QueueRow
  | [] => []
  | x :: xs => insertByTimestamp x (sortByTimestamp xs)

/-- Rows the get_pending_jobs query returns: `WHERE status = 'PENDING'
ORDER BY last_modified_at ASC LIMIT limit` (db_manager.py lines 210-216). -/
def selectPendingRows (t : List QueueRow) (limit : Nat) : List QueueRow :=
  ((sortByTimestamp t).filter (fun r => r.status = "PENDING")).take limit

/-- db_manager.get_pending_jobs (lines 207-230): runs the PENDING-only query,
then builds a `FilingInfo` per row.  The constructor call passes
accession_number, ticker, filing_type, filing_url and status — but not the
required `filing_date` field — so the first returned row raises `TypeError`
(re-raised by `get_db_connection`, which only swallows `psycopg.Error`). -/
def get_pending_jobs (t : List QueueRow) (limit : Nat) :
    Except PyErr (List FilingInfo) :=
  (selectPendingRows t limit).mapM (fun r =>
    mkFilingInfo
      { accession_number := some r.accession_number,
        ticker := some r.ticker,
        filing_type := some r.filing_type,
        filing_url := some r.filing_url,
        status := some AnalysisStatus.PENDING.value })

/-- db_manager.remove_analysis_queue (lines 233-236): DELETE by
accession_number. -/
def remove_analysis_queue (t : List QueueRow) (accession : String) :
    List QueueRow :=
  t.filter (fun r => r.accession_number ≠ accession)

/-- db_manager.insert_analysis_archive (lines 239-254): a plain INSERT with no
conflict clause.  If the accession number is already archived, PostgreSQL
raises a unique-violation `psycopg.Error`, which `get_db_connection` catches,
rolls back, and does not re-raise — so the call returns normally and the table
is unchanged. -/
def insert_analysis_archive (t : List ArchiveRow) (job : FilingInfo)
    (now : Nat) : List ArchiveRow :=
  if t.any (fun r => r.accession_number = job.accession_number) then t
  else
    t ++ [{ accession_number := job.accession_number, ticker := job.ticker,
            filing_type := job.filing_type, filing_url := job.filing_url,
            gemini_analysis := job.gemini_analysis, analyzed_at := now }]

/-- db_manager.update_quota_count (lines 279-285): overwrite the singleton row
with the new count and the passed date. -/
def update_quota_count (newCount : Nat) (dateObj : Nat) : QuotaRow :=
  { quota_date := dateObj, request_count := newCount }

/-- bg_task.calc_current_quota_status (lines 167-196).  Reads the quota row;
if the stored date is not today the count is treated as 0 (nothing is written
back — the function performs no store write); if the effective count has
reached `GEMINI_DAILY_LIMIT` it returns `(daily_limit, 0)`; otherwise it
returns the effective count together with
`min(GEMINI_RPM_LIMIT, daily_limit - count)`. -/
def calc_current_quota_status (cfg : Config) (q : QuotaRow) (today : Nat) :
    Nat × Nat :=
  let current_count := if q.quota_date = today then q.request_count else 0
  let daily_limit := cfg.GEMINI_DAILY_LIMIT
  if current_count ≥ daily_limit then
    (daily_limit, 0)
  else
    (current_count, min cfg.GEMINI_RPM_LIMIT (daily_limit - current_count))

/-- Python `len` of a string (counts Unicode code points, like Lean chars). -/
def pyLen (s : String) : Nat := s.data.length

/-- Python slice `s[:n]`. -/
def pySlice (s : String) (n : Nat) : String := ⟨s.data.take n⟩

/-- Python truthiness fallback `o or d` for an optional string: `None` and the
empty string are falsy. -/
def pyOrStr (o : Option String) (d : String) : String :=
  match o with
  | some s => if s = "" then d else s
  | none => d

/-- Expansion of one character under `html.escape(s)` (quote=True): the five
special characters become entity references, every other character is kept. -/
def html_escape_char (c : Char) : List Char :=
  if c = '&' then "&amp;".data
  else if c = '<' then "&lt;".data
  else if c = '>' then "&gt;".data
  else if c = Char.ofNat 34 then "&quot;".data
  else if c = Char.ofNat 39 then "&#x27;".data
  else [c]

/-- html.escape as used by telegram_helper (quote defaulting to True). -/
def html_escape (s : String) : String := ⟨s.data.flatMap html_escape_char⟩

/-- telegram_helper.TELEGRAM_MAX_LENGTH. -/
def TELEGRAM_MAX_LENGTH : Nat := 4096

/-- Emoji chosen in telegram_helper._build_message line 28:
`{"10-K": "📋", "10-Q": "📄", "8-K": "⚡"}.get(filing_type, "🔔")`. -/
def type_emoji (filing_type : String) : String :=
  if filing_type = "10-K" then "📋"
  else if filing_type = "10-Q" then "📄"
  else if filing_type = "8-K" then "⚡"
  else "🔔"

/-- telegram_helper._build_message (lines 26-59): assembles the Telegram HTML
message from the filing info and the analysis dict, escaping every inserted
content string. -/
def build_message (filing_info : FilingInfo) (analysis : AnalysisDict) :
    String :=
  let msg := type_emoji filing_info.filing_type ++ " <b>"
      ++ html_escape filing_info.ticker ++ " 신규 공시 ("
      ++ html_escape filing_info.filing_type ++ ")</b>\n"
  let msg := msg ++ "<code>📅 " ++ html_escape filing_info.filing_date
      ++ "</code>\n\n"
  let executive_summary :=
    html_escape (analysis.executive_summary.getD "요약 없음")
  let msg := msg ++ "<b>✨ 3줄 요약</b>\n" ++ "<i>" ++ executive_summary
      ++ "</i>\n\n"
  let msg := msg ++ "<b>📊 주요 공시 내용</b>\n"
  let facts : List String :=
    match analysis.objective_facts with
    | none => []
    | some (.str s) => [s]
    | some (.list l) => l
  let msg := msg ++
    (if facts ≠ [] then
      String.join (facts.map (fun fact => "  • " ++ html_escape fact ++ "\n"))
    else "  • N/A\n")
  let msg := msg ++ "\n"
  let positive_signals := html_escape (analysis.positive_signals.getD "N/A")
  let potential_risks := html_escape (analysis.potential_risks.getD "N/A")
  let overall_opinion := html_escape (analysis.overall_opinion.getD "N/A")
  let msg := msg ++ "<b>💡 AI 인사이트</b>\n"
  let msg := msg ++ "<b>👍 긍정 신호</b>\n" ++ positive_signals ++ "\n\n"
  let msg := msg ++ "<b>👎 위험 신호</b>\n" ++ potential_risks ++ "\n\n"
  let msg := msg ++ "<b>💬 종합 의견</b>\n" ++ overall_opinion ++ "\n\n"
  msg ++ "🔗 <a href=\"" ++ html_escape filing_info.filing_url
      ++ "\">공시 원문 보기</a>"

/-- Fixed truncation marker appended by telegram_helper line 76. -/
def TRUNCATION_TAIL : String := "\n\n<i>⚠️ 내용이 너무 길어 일부가 생략되었습니다.</i>"

/-- Message text computed by send_filing_notification_to_users (telegram_helper
lines 62-78): render; if over 4096 characters re-render from the condensed
analysis returned by `shorten_analysis` (an external Gemini call whose outcome
— which is the original dict whenever that call fails — is the `shortened`
parameter); if still over the limit, truncate to `4096 - len(tail)` characters
and append the fixed marker.  The truncation branch is straight-line code: it
performs no further recursion. -/
def notification_text (filing_info : FilingInfo) (shortened : AnalysisDict) :
    String :=
  let analysis := filing_info.gemini_analysis.getD {}
  let msg := build_message filing_info analysis
  if pyLen msg > TELEGRAM_MAX_LENGTH then
    let msg := build_message filing_info shortened
    if pyLen msg > TELEGRAM_MAX_LENGTH then
      pySlice msg (TELEGRAM_MAX_LENGTH - pyLen TRUNCATION_TAIL)
        ++ TRUNCATION_TAIL
    else msg
  else msg

/-- telegram_helper.send_filing_notification_to_users (lines 62-86): builds the
bounded message, then loops over the subscribers of the ticker (`users`, read
from the subscriptions table) and sends to each one.  Each `bot.send_message`
sits in its own try/except: a failed send (`sendOk u = false`) is logged and
the loop continues, so per-recipient delivery failures never raise and never
touch the database.  Returns the message and the per-recipient outcomes. -/
def send_filing_notification_to_users (filing_info : FilingInfo)
    (shortened : AnalysisDict) (users : List Int) (sendOk : Int → Bool) :
    String × List (Int × Bool) :=
  let msg := notification_text filing_info shortened
  (msg, users.map (fun u => (u, sendOk u)))

/-- ExtractedFilingData from src/configs/types.py (lines 87-101) together with
the two attributes the extraction module assigns dynamically at runtime.
The five declared dataclass fields default to `None` (`none`).  `event_items`
and `press_release_text` are NOT declared fields: the extraction code sets them
with plain attribute assignment when it finds the data, so for those two fields
`none` models "attribute was never set", and reading them then raises
`AttributeError` (a set attribute is always a real value, never `None`).
Numeric rendering of financial values (`_format_amount`, floating-point
formatting of externally extracted numbers) is opaque here: `financial_data`
carries each value as the string that rendering produces. -/
structure ExtractedFilingData where
  mda_text : Option String := none
  risk_factors_text : Option String := none
  financial_data : Option (List (String × String)) := none
  clean_8k_text : Option String := none
  event_title : Option String := none
  event_items : Option (List String) := none
  press_release_text : Option String := none
deriving Repr, DecidableEq

/-- Ordered financial metric labels of gemini_helper._build_prompt
(lines 60-71). -/
def FINANCIAL_LABELS : List (String × String) :=
  [("Revenue", "Revenue"),
   ("GrossProfit", "Gross Profit"),
   ("OperatingIncome", "Operating Income"),
   ("NetIncome", "Net Income"),
   ("EPS", "EPS"),
   ("OperatingCashFlow", "Operating Cash Flow"),
   ("FreeCashFlow", "Free Cash Flow"),
   ("TotalAssets", "Total Assets"),
   ("TotalDebt", "Total Debt"),
   ("Cash", "Cash & Equivalents")]

/-- Mapping of 8-K item codes to event descriptions
(gemini_helper._build_prompt lines 123-141). -/
def ITEM_DESCRIPTIONS : List (String × String) :=
  [("1.01", "Entry into Material Definitive Agreement"),
   ("1.02", "Termination of Material Definitive Agreement"),
   ("1.03", "Bankruptcy or Receivership"),
   ("1.05", "Cybersecurity Incident"),
   ("2.01", "Completion of Acquisition or Disposition"),
   ("2.02", "Results of Operations and Financial Condition (실적 발표)"),
   ("2.03", "Creation of Direct Financial Obligation"),
   ("2.05", "Costs Associated with Exit or Disposal Activities"),
   ("2.06", "Material Impairments"),
   ("4.01", "Changes in Certifying Accountant"),
   ("4.02", "Non-Reliance on Previously Issued Financial Statements"),
   ("5.02", "Departure/Appointment of Directors or Officers (임원 변동)"),
   ("5.03", "Amendments to Articles of Incorporation or Bylaws"),
   ("5.07", "Submission of Matters to Vote of Security Holders"),
   ("7.01", "Regulation FD Disclosure"),
   ("8.01", "Other Events"),
   ("9.01", "Financial Statements and Exhibits")]

/-- Fixed pieces of the 10-K/10-Q prompt f-string (gemini_helper lines 81-118),
split at the interpolation points for filing_type, ticker, financial_summary,
mda_summary and risk_summary. -/
def PERIODIC_PROMPT_1 : String := "\nYou are an expert equity analyst writing a concise briefing for a retail stock investor.\nAnalyze the "

/-- Piece between the filing_type and ticker interpolations. -/
def PERIODIC_PROMPT_2 : String := " SEC filing for \""

/-- Piece between the ticker and financial_summary interpolations. -/
def PERIODIC_PROMPT_3 : String := "\" using ONLY the data provided below.\nRespond with a single minified JSON object with EXACTLY these 5 keys, all values in Korean.\n\n--- 1. Financial Data (Item 8) ---\n"

/-- Piece between financial_summary and mda_summary. -/
def PERIODIC_PROMPT_4 : String := "\n\n--- 2. Management\x27s Discussion & Analysis (Item 7) ---\n"

/-- Piece between mda_summary and risk_summary. -/
def PERIODIC_PROMPT_5 : String := "\n\n--- 3. Risk Factors (Item 1A) ---\n"

/-- Field-instruction block closing the 10-K/10-Q prompt. -/
def PERIODIC_PROMPT_6 : String := "\n\nJSON field instructions:\n\n\"executive_summary\": Exactly 3 sentences.\n  - Sentence 1: Headline financial result (revenue and net income vs. prior period, with % change if available).\n  - Sentence 2: Management\x27s key explanation or most important forward-looking statement.\n  - Sentence 3: Overall business momentum — is the company accelerating, stable, or deteriorating?\n\n\"objective_facts\": A JSON array of 4–6 strings.\n  Each string must be ONE concrete, numbered fact pulled DIRECTLY from the filing.\n  Examples: revenue figure with YoY%, net income, operating margin, guidance range, key segment performance.\n  NO interpretation — hard facts and numbers only.\n\n\"positive_signals\": 2–3 sentences. The strongest BULLISH evidence in this filing.\n  Focus on: revenue/margin growth, strong guidance, competitive advantage, debt reduction, buybacks.\n  Always cite the specific figure or statement that supports the signal.\n\n\"potential_risks\": 2–3 sentences. The most MATERIAL risks to the share price.\n  Focus on: revenue miss, margin compression, rising debt, regulatory exposure, management warnings.\n  Always cite the specific figure or statement that supports the risk.\n\n\"overall_opinion\": Exactly 2 sentences.\n  - Sentence 1: Net assessment — is this a strong/weak/mixed filing and what is the single most important takeaway for shareholders?\n  - Sentence 2: What specific metric or event should investors watch in the next quarter?\n"

/-- Fixed pieces of the 8-K prompt f-string (gemini_helper lines 154-188),
split at the interpolation points for ticker, event_context and filing_text. -/
def EVENT_PROMPT_1 : String := "\nYou are an expert equity analyst covering breaking market-moving news for retail investors.\nAnalyze the following 8-K SEC filing for \""

/-- Piece between the ticker and event_context interpolations. -/
def EVENT_PROMPT_2 : String := "\".\n8-K filings report specific material events. Cut through the legalese: tell investors exactly what happened and what it means for the stock.\nRespond with a single minified JSON object with EXACTLY these 5 keys, all values in Korean.\n\n--- REPORTED EVENT ITEMS ---\n"

/-- Piece between event_context and filing_text. -/
def EVENT_PROMPT_3 : String := "\n\n--- 8-K FILING TEXT ---\n"

/-- Field-instruction block closing the 8-K prompt. -/
def EVENT_PROMPT_4 : String := "\n\nJSON field instructions:\n\n\"executive_summary\": Exactly 3 sentences.\n  - Sentence 1: What event occurred — who, what, when, with concrete specifics (names, dates, amounts).\n  - Sentence 2: The direct business or financial consequence of this event.\n  - Sentence 3: Why this matters to shareholders and how significant it is.\n\n\"objective_facts\": A JSON array of 3–5 strings.\n  Each string = ONE objective fact extracted from the filing (person name + role, date, dollar amount, contractual term, etc.).\n  NO opinion or interpretation — raw facts only.\n\n\"positive_signals\": 1–2 sentences. Why this event could be BULLISH.\n  Examples: new revenue-generating deal, cost reduction, strong leadership hire, resolved legal uncertainty, strategic partnership.\n  If no positive angle exists, state \"이번 공시에서 뚜렷한 긍정적 신호는 확인되지 않습니다.\"\n\n\"potential_risks\": 1–2 sentences. Why this event could be BEARISH or introduce uncertainty.\n  Examples: executive departure risk, shareholder dilution, legal/regulatory exposure, one-time charges, strategic pivot risk.\n  If no risk angle exists, state \"이번 공시에서 뚜렷한 위험 신호는 확인되지 않습니다.\"\n\n\"overall_opinion\": Exactly 2 sentences.\n  - Sentence 1: Materiality verdict — is this event MAJOR or MINOR, and is the net signal BULLISH / BEARISH / NEUTRAL for the stock?\n  - Sentence 2: What follow-up event or disclosure should investors watch for next?\n"

/-- gemini_helper._build_prompt (lines 44-191).  For "10-K"/"10-Q" it builds
the periodic prompt from the financial lines (one per label whose key is in
financial_data) and the MD&A / risk-factor texts (each falling back to "N/A"
when falsy).  For "8-K" it builds the event prompt: the event-item context
(codes described via ITEM_DESCRIPTIONS, the administrative "9.01" exhibits
code excluded, "N/A" when nothing remains) and the press-release-or-full-text
fallback — note that `data.event_items` and `data.press_release_text` are
dynamic attributes, so reading them raises `AttributeError` when the
extraction never set them.  Any other filing type raises `ValueError`. -/
def build_prompt (data : ExtractedFilingData) (ticker filing_type : String) :
    Except PyErr String :=
  if filing_type = "10-K" ∨ filing_type = "10-Q" then
    let fd := data.financial_data.getD []
    let lines := FINANCIAL_LABELS.filterMap (fun kl =>
      (fd.lookup kl.1).map (fun v => "- " ++ kl.2 ++ ": " ++ v))
    let financial_summary :=
      if lines ≠ [] then String.intercalate "\n" lines else "N/A"
    let mda_summary := pyOrStr data.mda_text "N/A"
    let risk_summary := pyOrStr data.risk_factors_text "N/A"
    .ok (PERIODIC_PROMPT_1 ++ filing_type ++ PERIODIC_PROMPT_2 ++ ticker
      ++ PERIODIC_PROMPT_3 ++ financial_summary ++ PERIODIC_PROMPT_4
      ++ mda_summary ++ PERIODIC_PROMPT_5 ++ risk_summary
      ++ PERIODIC_PROMPT_6)
  else if filing_type = "8-K" then
    match data.event_items with
    | none => .error (.attributeError "event_items")
    | some items =>
      let event_context :=
        if items ≠ [] then
          let described := (items.filter (fun c => c ≠ "9.01")).map
            (fun code =>
              code ++ " (" ++ (ITEM_DESCRIPTIONS.lookup code).getD "Unknown"
                ++ ")")
          if described ≠ [] then String.intercalate ", " described else "N/A"
        else "N/A"
      match data.press_release_text with
      | none => .error (.attributeError "press_release_text")
      | some p =>
        let filing_text := if p ≠ "" then p else pyOrStr data.clean_8k_text ""
        .ok (EVENT_PROMPT_1 ++ ticker ++ EVENT_PROMPT_2 ++ event_context
          ++ EVENT_PROMPT_3 ++ filing_text ++ EVENT_PROMPT_4)
  else
    .error (.valueError
      ("Unsupported filing_type for prompt generation: " ++ filing_type))

/-- gemini_helper.get_comprehensive_analysis (lines 228-268).  The prompt is
built BEFORE the try block, so `_build_prompt` exceptions propagate to the
caller.  A falsy prompt returns `None` (dead in practice: built prompts are
never empty).  Everything else — the Gemini call, the JSON block extraction
and `json.loads` — happens inside a try/except that logs and returns `None` on
any failure, so the outcome of that block is an input: `api` is the parsed
analysis dict, or `none` for any API/parsing failure. -/
def get_comprehensive_analysis (data : ExtractedFilingData)
    (ticker filing_type : String) (api : Option AnalysisDict) :
    Except PyErr (Option AnalysisDict) := do
  let prompt ← build_prompt data ticker filing_type
  if prompt = "" then .ok none
  else .ok api

/-- Decidable equality of `Except` values over decidable components. -/
instance {ε α : Type} [DecidableEq ε] [DecidableEq α] :
    DecidableEq (Except ε α) := fun a b =>
  match a, b with
  | .ok x, .ok y =>
      if h : x = y then isTrue (by simp [h]) else isFalse (by simp [h])
  | .error x, .error y =>
      if h : x = y then isTrue (by simp [h]) else isFalse (by simp [h])
  | .ok _, .error _ => isFalse (by simp)
  | .error _, .ok _ => isFalse (by simp)

/-- Result of one `_process_single_job` call: the resulting store, the Python
outcome (`.ok true` = success, `.ok false` = handled failure, `.error` = an
exception escaping the function), and the store snapshots after each committed
transaction, in commit order. -/
structure JobRun where
  state : DBState
  result : Except PyErr Bool
  committed : List DBState
deriving Repr, DecidableEq

/-- Failure branch of bg_task._process_single_job (lines 58-78): increment the
in-memory retry count, then read `config.MAX_RETRY_LIMIT` — an attribute
src/configs/config.py does not define, so the comparison on line 67 raises
`AttributeError` and nothing is persisted.  The code the branch goes on to
(kept here for the hypothetical configurations where the attribute lookup
succeeds) would set PERMANENT_FAIL — another missing attribute — or FAILED and
persist via update_analysis_queue. -/
def handle_failure (cfg : Config) (st : DBState) (job : FilingInfo)
    (now : Nat) : JobRun :=
  let job := { job with retry_count := job.retry_count + 1 }
  match cfg.attr? "MAX_RETRY_LIMIT" with
  | none => { state := st, result := .error (.attributeError "MAX_RETRY_LIMIT"),
              committed := [] }
  | some maxRetry =>
    let status? : Option String :=
      if job.retry_count ≥ maxRetry then
        (AnalysisStatus.member? "PERMANENT_FAIL").map AnalysisStatus.value
      else some AnalysisStatus.FAILED.value
    match status? with
    | none => { state := st,
                result := .error (.attributeError "PERMANENT_FAIL"),
                committed := [] }
    | some s =>
      let job := { job with status := s }
      let st := { st with queue := update_analysis_queue st.queue job now }
      { state := st, result := .ok false, committed := [st] }

/--bg_task._process_single_job (lines 14-78).  Step 1 awaits the external
extraction (its outcome is the `extraction` argument; an exception is
re-raised as RuntimeError and handled by the failure branch).  Step 2 runs
get_comprehensive_analysis: an exception (unsupported filing type, missing
8-K attribute) is re-raised as RuntimeError and a `None` result raises
ValueError — both handled by the same failure branch.  On success the job is
stamped COMPLETED and step 3 runs three awaits in sequence, each a separate
transaction or network call: archive insert (commit 1), Telegram delivery
(which never raises: per-recipient failures are swallowed), queue delete
(commit 2).  There is no transaction spanning the insert and the delete. -/
def process_single_job (cfg : Config)
    (extraction : Except PyErr ExtractedFilingData)
    (api : Option AnalysisDict) (shortened : AnalysisDict)
    (users : List Int) (sendOk : Int → Bool)
    (st : DBState) (job : FilingInfo) (now : Nat) : JobRun :=
  match extraction with
  | .error _e => handle_failure cfg st job now
  | .ok data =>
    match get_comprehensive_analysis data job.ticker job.filing_type api with
    | .error _e => handle_failure cfg st job now
    | .ok none => handle_failure cfg st job now
    | .ok (some analysis_result) =>
      let job := { job with gemini_analysis := some analysis_result }
      let job := { job with status := AnalysisStatus.COMPLETED.value }
      let st1 := { st with
        archive := insert_analysis_archive st.archive job now }
      let _delivery := send_filing_notification_to_users job shortened
        users sendOk
      let st2 := { st1 with
        queue := remove_analysis_queue st1.queue job.accession_number }
      { state := st2, result := .ok true, committed := [st1, st2] }

/-- External outcomes consumed by one job of a drain cycle. -/
structure JobOracle where
  extraction : Except PyErr ExtractedFilingData := .error (.runtimeError "unreachable")
  api : Option AnalysisDict := none
  shortened : AnalysisDict := {}
  users : List Int := []
  sendOk : Int → Bool := fun _ => true

/-- Job loop of bg_task.process_analysis_queue (lines 155-159): process the
dequeued jobs strictly in sequence, counting successes; an exception escaping
`_process_single_job` aborts the loop (the `for` has no try/except). -/
def run_jobs (cfg : Config) (orcs : List JobOracle) (st : DBState)
    (jobs : List FilingInfo) (now : Nat) : DBState × Nat × Option PyErr :=
  match jobs, orcs with
  | [], _ => (st, 0, none)
  | j :: rest, orcs =>
    let orc := orcs.headD {}
    let run := process_single_job cfg orc.extraction orc.api orc.shortened
      orc.users orc.sendOk st j now
    match run.result with
    | .error e => (run.state, 0, some e)
    | .ok b =>
      let (st', k, e?) := run_jobs cfg (orcs.drop 1) run.state rest now
      (st', (if b then 1 else 0) + k, e?)

/-- bg_task.process_analysis_queue (lines 136-164), one drain cycle.  Compute
the quota status; stop when no quota is grantable; dequeue up to `has_quota`
pending jobs (get_pending_jobs — whose `FilingInfo` construction raises
`TypeError` on every nonempty result, aborting the cycle); stop when the list
is empty; otherwise process the jobs in sequence and, when at least one
succeeded, write `current_count + success_count` with the present date to the
quota tracker. -/
def process_analysis_queue (cfg : Config) (orcs : List JobOracle)
    (st : DBState) (today now : Nat) : DBState × Except PyErr Unit :=
  let (current_count, has_quota) :=
    calc_current_quota_status cfg st.quota today
  if has_quota = 0 then (st, .ok ())
  else
    match get_pending_jobs st.queue has_quota with
    | .error e => (st, .error e)
    | .ok [] => (st, .ok ())
    | .ok jobs =>
      let (st', success_count, e?) := run_jobs cfg orcs st jobs now
      match e? with
      | some e => (st', .error e)
      | none =>
        if success_count > 0 then
          ({ st' with
             quota := update_quota_count (current_count + success_count) today },
           .ok ())
        else (st', .ok ())

/-- Sequence of drain cycles within one quota day: each entry carries the
external outcomes and the logical clock of one cycle. -/
def run_cycles (cfg : Config) (today : Nat)
    (cycles : List (List JobOracle × Nat)) (st : DBState) : DBState :=
  cycles.foldl
    (fun s c => (process_analysis_queue cfg c.1 s today c.2).1) st

/-- One entry of the newest-first recent-filings list the external SEC
submissions feed yields (each dict carries accession_number, form_type,
filing_date and filing_url). -/
structure RemoteFiling where
  accession_number : String
  form_type : String
  filing_date : String
  filing_url : String
deriving Repr, DecidableEq

/-- Python equality `s == last_accession_num` where the right side may be
`None` (no stored watermark): comparing a string with `None` is `False`. -/
def pyEqOpt (s : String) (o : Option String) : Bool :=
  match o with
  | some l => s = l
  | none => false

/-- Watermark-diff walk of bg_task.discover_new_filings (lines 97-102): scan
the newest-first list, collecting entries until one equals the stored
watermark (`break`) or the list ends. -/
def collect_new_filings (filings_list : List RemoteFiling)
    (last_accession_num : Option String) : List RemoteFiling :=
  match filings_list with
  | [] => []
  | f :: rest =>
    if pyEqOpt f.accession_number last_accession_num then []
    else f :: collect_new_filings rest last_accession_num

/-- FilingInfo built by discover_new_filings for a list entry (lines 109-116
and 119-126): every required field is passed, status is PENDING. -/
def toPendingJob (ticker : String) (f : RemoteFiling) : FilingInfo :=
  { accession_number := f.accession_number, ticker := ticker,
    filing_type := f.form_type, filing_date := f.filing_date,
    filing_url := f.filing_url, status := AnalysisStatus.PENDING.value }

/-- db_manager.update_last_filing_info (lines 179-188): upsert of the
watermark row keyed by ticker. -/
def update_last_filing_info (w : List WatermarkRow) (info : FilingInfo) :
    List WatermarkRow :=
  if w.any (fun r => r.ticker = info.ticker) then
    w.map (fun r =>
      if r.ticker = info.ticker then
        { r with last_accession_number := info.accession_number,
                 last_filing_type := info.filing_type }
      else r)
  else
    w ++ [{ ticker := info.ticker,
            last_accession_number := info.accession_number,
            last_filing_type := info.filing_type }]

/-- Sequential upserts of the oldest-first job list into the queue; each
upsert is its own transaction and the wall clock strictly advances between
them (modelled by stepping the logical clock). -/
def upsert_jobs (q : List QueueRow) (jobs : List FilingInfo) (now : Nat) :
    List QueueRow :=
  match jobs with
  | [] => q
  | j :: rest => upsert_jobs (update_analysis_queue q j now) rest (now + 1)

/-- Jobs upserted by one discovery step together with the resulting tables. -/
structure DiscoverOutcome where
  upserts : List FilingInfo
  queue : List QueueRow
  watermarks : List WatermarkRow
deriving Repr, DecidableEq

/-- Per-ticker body of bg_task.discover_new_filings (lines 89-127), given the
stored watermark and the externally fetched newest-first filings list.  Diff
against the watermark; if anything is new, cap the collected list to
`DISCOVER_FILING_AMOUNT`, upsert the capped entries oldest-first as PENDING,
then set the watermark row to `new_filings_to_process[0]` (the newest kept
entry; with a cap of 0 that index access raises `IndexError`, which the
per-ticker try/except of the caller would swallow). -/
def discover_for_ticker (cfg : Config) (ticker : String)
    (last_accession_num : Option String) (filings_list : List RemoteFiling)
    (queue : List QueueRow) (watermarks : List WatermarkRow) (now : Nat) :
    Except PyErr DiscoverOutcome :=
  let new0 := collect_new_filings filings_list last_accession_num
  if new0 = [] then .ok { upserts := [], queue := queue,
                          watermarks := watermarks }
  else
    let new_filings_to_process := new0.take cfg.DISCOVER_FILING_AMOUNT
    let jobs := new_filings_to_process.reverse.map (toPendingJob ticker)
    match new_filings_to_process.head? with
    | none => .error (.indexError "list index out of range")
    | some newest =>
      .ok { upserts := jobs,
            queue := upsert_jobs queue jobs now,
            watermarks :=
              update_last_filing_info watermarks (toPendingJob ticker newest) }

/-- db_manager.get_last_accession_number (lines 169-176): SELECT the watermark
row of the ticker and return its accession number, `None` when absent. -/
def get_last_accession_number (w : List WatermarkRow) (ticker : String) :
    Option String :=
  (w.find? (fun r => r.ticker = ticker)).map (fun r => r.last_accession_number)

/-- Uniqueness invariant the `accession_number TEXT NOT NULL PRIMARY KEY`
constraint of the analysis_queue schema enforces. -/
def queueKeysUnique (t : List QueueRow) : Prop :=
  t.Pairwise (fun a b => a.accession_number ≠ b.accession_number)

/-- Uniqueness invariant the primary key of analysis_archive enforces. -/
def archiveKeysUnique (t : List ArchiveRow) : Prop :=
  t.Pairwise (fun a b => a.accession_number ≠ b.accession_number)

/-- Concrete PENDING queue row used to evaluate the embedded operations. -/
def pendingRow : QueueRow :=
  { accession_number := "F1", ticker := "TSLA", filing_type := "10-K",
    filing_url := "https://sec.example/f1", status := "PENDING",
    last_modified_at := 1 }

/-- Concrete FAILED queue row used to evaluate the embedded operations. -/
def failedRow : QueueRow :=
  { accession_number := "F2", ticker := "TSLA", filing_type := "8-K",
    filing_url := "https://sec.example/f2", status := "FAILED",
    last_modified_at := 1 }

/-- Concrete job matching `pendingRow`. -/
def jobF1 : FilingInfo :=
  { accession_number := "F1", ticker := "TSLA", filing_type := "10-K",
    filing_date := "2026-01-02", filing_url := "https://sec.example/f1",
    status := "PENDING" }

/-- Concrete store: one pending job queued, empty archive, fresh quota row. -/
def st0 : DBState :=
  { queue := [pendingRow], archive := [], quota := ⟨0, 0⟩ }

/-- Concrete parsed analysis dict. -/
def anaA : AnalysisDict :=
  { executive_summary := some "요약 문장.",
    objective_facts := some (.list ["매출 10% 증가"]),
    positive_signals := some "긍정 신호.",
    potential_risks := some "위험 신호.",
    overall_opinion := some "종합 의견." }

/-- Concrete extracted 10-K data. -/
def dataTenK : ExtractedFilingData :=
  { mda_text := some "MD&A section text.",
    risk_factors_text := some "Risk factors text.",
    financial_data := some [("Revenue", "$1.00B"), ("NetIncome", "$0.10B")] }

/-! ### Helper lemmas -/

/-- Length of an appended string is the sum of the lengths. -/
theorem pyLen_append : ∀ a b : String, pyLen (a ++ b) = pyLen a + pyLen b :=
  fun ⟨la⟩ ⟨lb⟩ => List.length_append la lb

/-- A Python slice `s[:n]` has length at most `n`. -/
theorem pyLen_pySlice_le : ∀ (s : String) (n : Nat), pyLen (pySlice s n) ≤ n :=
  fun ⟨ls⟩ n => List.length_take_le n ls

/-! ### C2 -/

/-- C2 (code_bug evaluation): the claim says a job left in FAILED status is
dequeue-eligible again on the next drain cycle, like a PENDING job.  The
dequeue query selects rows with `status = 'PENDING'` only, so a FAILED row is
never returned: on a queue holding one FAILED job the selection is empty and
get_pending_jobs returns the empty list, while the same row with status
PENDING would be selected.  FAILED jobs are therefore never retried, although
the failure branch of `_process_single_job` documents them as awaiting the
next retry. -/
theorem failed_jobs_never_dequeued :
    selectPendingRows [failedRow] 5 = []
    ∧ get_pending_jobs [failedRow] 5 = .ok []
    ∧ selectPendingRows [{ failedRow with status := "PENDING" }] 5
        = [{ failedRow with status := "PENDING" }] := by
  decide

/-! ### C10 -/

/-- C10 (code_bug evaluation): the claim says every job returned by the
dequeue carries retryCount 0 and status PENDING (the queue table stores no
retry count and the status write persists only status and timestamp).  In
fact the dequeue never returns a job at all once a PENDING row exists: the
`FilingInfo` construction in get_pending_jobs omits the required
`filing_date` field, so the call raises `TypeError` (re-raised by
`get_db_connection`) instead of producing the in-memory job whose counter
would restart at 0. -/
theorem dequeue_raises_typeerror :
    get_pending_jobs [pendingRow] 1 =
      .error (.typeError
        "FilingInfo.__init__() missing 1 required positional argument: \x27filing_date\x27") := by
  decide

/-! ### C5 -/

/-- C5: the grantable-quota computation treats a stored count with a stale
date as 0 without writing anything back (the function only reads the store;
here it behaves exactly as if the stored row were `(today, effective)`), it
grants 0 once the effective count reaches the daily limit and
`min(perMinuteLimit, dailyLimit - count)` otherwise, and on the spec's
example — dailyLimit 50, stored count 49 dated today, perMinuteLimit 2 — the
grantable amount is 1. -/
theorem grantable_quota_spec (cfg : Config) (q : QuotaRow) (today : Nat) :
    (calc_current_quota_status cfg q today).2 =
      (if cfg.GEMINI_DAILY_LIMIT ≤
          (if q.quota_date = today then q.request_count else 0) then 0
       else min cfg.GEMINI_RPM_LIMIT
         (cfg.GEMINI_DAILY_LIMIT -
           (if q.quota_date = today then q.request_count else 0)))
    ∧ calc_current_quota_status cfg q today =
        calc_current_quota_status cfg
          ⟨today, if q.quota_date = today then q.request_count else 0⟩ today
    ∧ calc_current_quota_status {} ⟨today, 49⟩ today = (49, 1) := by
  refine ⟨?_, ?_, ?_⟩
  · rcases eq_or_ne q.quota_date today with hd | hd <;>
      simp only [calc_current_quota_status, if_pos, if_neg, hd, if_true,
        if_false, ite_true, ite_false] <;>
      split_ifs <;> rfl
  · rcases eq_or_ne q.quota_date today with hd | hd <;>
      simp [calc_current_quota_status, hd]
  · simp [calc_current_quota_status]

/-! ### C7 -/

/-- C7: the rendering pipeline of send_filing_notification_to_users — initial
render, condensed re-render (for any condensed analysis the provider returns,
including the original on condense failure), and the final
truncate-and-append-marker fallback — always yields a message of length at
most the Telegram hard limit of 4096 characters, for arbitrary filing info
and arbitrarily long analysis content; the truncation branch is straight-line
code with no further recursion. -/
theorem notification_text_length_le (filing_info : FilingInfo)
    (shortened : AnalysisDict) :
    pyLen (notification_text filing_info shortened) ≤ TELEGRAM_MAX_LENGTH := by
  simp only [notification_text]
  split
  · split
    · rw [pyLen_append]
      have h1 := pyLen_pySlice_le (build_message filing_info shortened)
        (TELEGRAM_MAX_LENGTH - pyLen TRUNCATION_TAIL)
      have h2 : pyLen TRUNCATION_TAIL ≤ TELEGRAM_MAX_LENGTH := by decide
      omega
    · omega
  · omega

/-! ### C1 -/

/-- C1 (code_bug evaluation): the claim says a failed job gets its retryCount
incremented and its status persisted as FAILED or (at `maxRetries`)
PERMANENT_FAIL via updateStatus.  In fact every failure branch dies on line 67
of bg_task.py: `config.MAX_RETRY_LIMIT` is an attribute src/configs/config.py
never defines, so after the in-memory increment the comparison raises
`AttributeError`, no status or retry count is persisted (the update is never
reached, and the schema has no retry-count column anyway — and
`AnalysisStatus.PERMANENT_FAIL` does not exist either), and the exception
escapes `_process_single_job` into the drain loop.  Shown on a failing
extraction both at retry count 0 and at a retry count far beyond the intended
maximum: the store is untouched, no transaction commits, and the result is
the escaping `AttributeError`. -/
theorem failure_path_raises_attribute_error :
    process_single_job {} (.error (.valueError "extraction failed")) none {}
        [] (fun _ => true) st0 jobF1 5
      = { state := st0, result := .error (.attributeError "MAX_RETRY_LIMIT"),
          committed := [] }
    ∧ process_single_job {} (.error (.valueError "extraction failed")) none {}
        [] (fun _ => true) st0 { jobF1 with retry_count := 9 } 5
      = { state := st0, result := .error (.attributeError "MAX_RETRY_LIMIT"),
          committed := [] } := by
  decide

/-! ### C9 -/

/-- C9 (counterexample): for the concrete unsupported filing type "S-4", the
request builder does raise the explicit `ValueError` (first conjunct, the true
half of the claim), but the drain loop does NOT exempt this precondition error
from its transient-failure machinery: processing the job lands in the same
failure handler — observably, the run is identical to processing the same job
under a transient Gemini outage (both enter `handle_failure`, whose
`config.MAX_RETRY_LIMIT` lookup then raises `AttributeError`), refuting the
claim that such an error is not retried by the transient-failure state
machine. -/
theorem unsupported_type_fed_to_retry_handler_example :
    build_prompt {} "TSLA" "S-4" =
      .error (.valueError "Unsupported filing_type for prompt generation: S-4")
    ∧ process_single_job {} (.ok {}) none {} [] (fun _ => true) st0
        { jobF1 with accession_number := "F4", filing_type := "S-4" } 5
      = handle_failure {} st0
          { jobF1 with accession_number := "F4", filing_type := "S-4" } 5
    ∧ process_single_job {} (.error (.runtimeError "Gemini unreachable")) none
        {} [] (fun _ => true) st0
        { jobF1 with accession_number := "F4", filing_type := "S-4" } 5
      = handle_failure {} st0
          { jobF1 with accession_number := "F4", filing_type := "S-4" } 5 := by
  decide

/-- C9 (amended): building an analysis request for any filing type outside
{10-K, 10-Q, 8-K} fails with the explicit `ValueError` — never a silent
skip — but the drain loop catches it like any other exception and feeds the
job to the same retry/failure handler used for transient failures (where the
missing `MAX_RETRY_LIMIT` then raises `AttributeError`); precondition errors
are not exempted from the retry machinery. -/
theorem unsupported_type_explicit_error_retry_handler
    (cfg : Config) (data : ExtractedFilingData) (api : Option AnalysisDict)
    (shortened : AnalysisDict) (users : List Int) (sendOk : Int → Bool)
    (st : DBState) (job : FilingInfo) (now : Nat)
    (h10k : job.filing_type ≠ "10-K") (h10q : job.filing_type ≠ "10-Q")
    (h8k : job.filing_type ≠ "8-K") :
    build_prompt data job.ticker job.filing_type =
      .error (.valueError
        ("Unsupported filing_type for prompt generation: " ++ job.filing_type))
    ∧ process_single_job cfg (.ok data) api shortened users sendOk st job now
        = handle_failure cfg st job now := by
  have hbp : build_prompt data job.ticker job.filing_type =
      .error (.valueError
        ("Unsupported filing_type for prompt generation: "
          ++ job.filing_type)) := by
    simp [build_prompt, h10k, h10q, h8k]
  refine ⟨hbp, ?_⟩
  simp [process_single_job, get_comprehensive_analysis, hbp, Bind.bind,
    Except.bind]

/-- C9 witness: the amended theorem applied at the concrete filing type
"S-4". -/
theorem unsupported_type_explicit_error_retry_handler_witness :
    (({ jobF1 with accession_number := "F4", filing_type := "S-4" } : FilingInfo).filing_type ≠ "10-K"
      ∧ ({ jobF1 with accession_number := "F4", filing_type := "S-4" } : FilingInfo).filing_type ≠ "10-Q"
      ∧ ({ jobF1 with accession_number := "F4", filing_type := "S-4" } : FilingInfo).filing_type ≠ "8-K")
    ∧ (build_prompt {}
        ({ jobF1 with accession_number := "F4", filing_type := "S-4" } : FilingInfo).ticker
        ({ jobF1 with accession_number := "F4", filing_type := "S-4" } : FilingInfo).filing_type =
        .error (.valueError
          ("Unsupported filing_type for prompt generation: "
            ++ ({ jobF1 with accession_number := "F4", filing_type := "S-4" } : FilingInfo).filing_type))
      ∧ process_single_job {} (.ok {}) none {} [] (fun _ => true) st0
          { jobF1 with accession_number := "F4", filing_type := "S-4" } 5
          = handle_failure {} st0
              { jobF1 with accession_number := "F4", filing_type := "S-4" } 5) :=
  ⟨by decide,
   unsupported_type_explicit_error_retry_handler {} {} none {} []
     (fun _ => true) st0
     { jobF1 with accession_number := "F4", filing_type := "S-4" } 5
     (by decide) (by decide) (by decide)⟩

/-- Under pairwise-distinct keys, at most one element matches a given key. -/
theorem length_filter_key_le_one {α : Type} (key : α → String) (k : String) :
    ∀ {l : List α}, l.Pairwise (fun a b => key a ≠ key b) →
      (l.filter (fun a => key a = k)).length ≤ 1 := by
  intro l hp
  induction l with
  | nil => simp
  | cons a t ih =>
    rcases List.pairwise_cons.mp hp with ⟨ha, hp'⟩
    by_cases h : key a = k
    · have ht : t.filter (fun a => key a = k) = [] :=
        List.filter_eq_nil_iff.mpr (by
          intro b hb
          simp only [decide_eq_true_eq]
          exact fun hbk => (ha b hb) (h.trans hbk.symm))
      simp [List.filter_cons, h, ht]
    · simpa [List.filter_cons, h] using ih hp'

/-- Under pairwise-distinct keys, a key that occurs matches exactly once. -/
theorem length_filter_key_eq_one {α : Type} (key : α → String) (k : String)
    (l : List α) (hp : l.Pairwise (fun a b => key a ≠ key b))
    (hx : l.any (fun a => key a = k) = true) :
    (l.filter (fun a => key a = k)).length = 1 := by
  refine le_antisymm (length_filter_key_le_one key k hp) ?_
  rcases List.any_eq_true.mp hx with ⟨x, hmem, hpx⟩
  exact List.length_pos.mpr
    (List.ne_nil_of_mem (List.mem_filter.mpr ⟨hmem, hpx⟩))

/-! ### C3 -/

/-- C3 (counterexample): on a concrete successful job, the success path of
`_process_single_job` commits the archive insert and the queue delete as two
separate transactions with Telegram delivery between them: after the first
commit the filing is simultaneously in the work queue and in the archive —
the intermediate state the claim says can never exist.  The run shown also
has its (only) recipient's delivery fail, and still ends archived and
dequeued with result success. -/
theorem archive_remove_not_atomic :
    ((process_single_job {} (.ok dataTenK) (some anaA) anaA [7]
        (fun _ => false) st0 jobF1 5).committed.map (fun s =>
          (s.queue.any (fun r => r.accession_number = "F1"),
           s.archive.any (fun r => r.accession_number = "F1"))))
      = [(true, true), (false, true)]
    ∧ (process_single_job {} (.ok dataTenK) (some anaA) anaA [7]
        (fun _ => false) st0 jobF1 5).result = .ok true := by
  decide

/-- C3 (amended): the archive insert and the queue delete are two separate
transactions with delivery between them (see the counterexample), so there is
a committed intermediate state in which the filing is both queued and
archived; nevertheless, in any completed successful run — for every
combination of recipients and per-recipient delivery outcomes, including all
sends failing — the filing ends present in the archive exactly once (existing
archive rows are never duplicated, because the conflicting re-insert is
rolled back and swallowed), absent from the work queue, with the archive
key-uniqueness invariant intact, and the job is not re-queued by the
delivery outcome. -/
theorem archive_exactly_once_queue_removed
    (cfg : Config) (data : ExtractedFilingData) (api : Option AnalysisDict)
    (a : AnalysisDict) (shortened : AnalysisDict) (users : List Int)
    (sendOk : Int → Bool) (st : DBState) (job : FilingInfo) (now : Nat)
    (hu : archiveKeysUnique st.archive)
    (hapi : get_comprehensive_analysis data job.ticker job.filing_type api
      = .ok (some a)) :
    ((process_single_job cfg (.ok data) api shortened users sendOk st job
        now).state.archive.filter
        (fun r => r.accession_number = job.accession_number)).length = 1
    ∧ (process_single_job cfg (.ok data) api shortened users sendOk st job
        now).state.queue.filter
        (fun r => r.accession_number = job.accession_number) = []
    ∧ (process_single_job cfg (.ok data) api shortened users sendOk st job
        now).result = .ok true
    ∧ archiveKeysUnique (process_single_job cfg (.ok data) api shortened
        users sendOk st job now).state.archive := by
  simp only [process_single_job, hapi]
  refine ⟨?_, ?_, trivial, ?_⟩
  · simp only [insert_analysis_archive]
    split
    · next hmem =>
        exact length_filter_key_eq_one
          (fun r : ArchiveRow => r.accession_number)
          job.accession_number st.archive hu (by simpa using hmem)
    · next hmem =>
        have hnil : st.archive.filter
            (fun r => r.accession_number = job.accession_number) = [] := by
          refine List.filter_eq_nil_iff.mpr ?_
          intro b hb
          simp only [decide_eq_true_eq]
          intro hbk
          exact hmem (by
            refine List.any_eq_true.mpr ⟨b, hb, ?_⟩
            simpa using hbk)
        simp [List.filter_append, hnil, List.filter_cons]
  · simp only [remove_analysis_queue, List.filter_filter]
    refine List.filter_eq_nil_iff.mpr ?_
    intro b hb
    simp
  · simp only [insert_analysis_archive]
    split
    · exact hu
    · next hmem =>
        refine List.pairwise_append.mpr ⟨hu, List.pairwise_singleton _ _, ?_⟩
        intro x hx y hy
        simp only [List.mem_singleton] at hy
        subst hy
        intro hk
        exact hmem (by
          refine List.any_eq_true.mpr ⟨x, hx, ?_⟩
          simpa using hk)

/-- C3 witness: the amended theorem applied at the concrete successful run of
the counterexample (empty archive, one queued PENDING row, one recipient whose
delivery fails). -/
theorem archive_exactly_once_queue_removed_witness :
    (archiveKeysUnique st0.archive
      ∧ get_comprehensive_analysis dataTenK jobF1.ticker jobF1.filing_type
          (some anaA) = .ok (some anaA))
    ∧ (((process_single_job {} (.ok dataTenK) (some anaA) anaA [7]
          (fun _ => false) st0 jobF1 5).state.archive.filter
          (fun r => r.accession_number = jobF1.accession_number)).length = 1
      ∧ (process_single_job {} (.ok dataTenK) (some anaA) anaA [7]
          (fun _ => false) st0 jobF1 5).state.queue.filter
          (fun r => r.accession_number = jobF1.accession_number) = []
      ∧ (process_single_job {} (.ok dataTenK) (some anaA) anaA [7]
          (fun _ => false) st0 jobF1 5).result = .ok true
      ∧ archiveKeysUnique (process_single_job {} (.ok dataTenK) (some anaA)
          anaA [7] (fun _ => false) st0 jobF1 5).state.archive) :=
  ⟨⟨List.Pairwise.nil, by decide⟩,
   archive_exactly_once_queue_removed {} dataTenK (some anaA) anaA anaA [7]
     (fun _ => false) st0 jobF1 5 List.Pairwise.nil (by decide)⟩

/-! ### C8 -/

/-- C8: upserting a job whose filing reference already has a queue row (`hr`
names that row) leaves exactly one row for the reference, whose status and
last-modified timestamp come from the upsert while the columns fixed at
creation — ticker (identifier), filing type and filing URL (source location);
the schema stores no filing-date column — are unchanged; rows of every other
reference are untouched, the row count is unchanged, and (for any queue
satisfying it) the one-row-per-reference invariant enforced by the primary
key is preserved by every upsert. -/
theorem upsert_single_row_per_filing (t : List QueueRow) (job : FilingInfo)
    (now : Nat) (r : QueueRow)
    (hu : queueKeysUnique t)
    (hr : t.filter (fun x => x.accession_number = job.accession_number)
      = [r]) :
    (update_analysis_queue t job now).filter
        (fun x => x.accession_number = job.accession_number)
      = [{ r with status := job.status, last_modified_at := now }]
    ∧ (update_analysis_queue t job now).filter
        (fun x => x.accession_number ≠ job.accession_number)
      = t.filter (fun x => x.accession_number ≠ job.accession_number)
    ∧ (update_analysis_queue t job now).length = t.length
    ∧ ∀ t₂ : List QueueRow, queueKeysUnique t₂ →
        queueKeysUnique (update_analysis_queue t₂ job now) := by
  have hrfil : r ∈ t.filter
      (fun x => x.accession_number = job.accession_number) := by
    rw [hr]; exact List.mem_singleton_self r
  have hrmem : r ∈ t := (List.mem_filter.mp hrfil).1
  have hracc : r.accession_number = job.accession_number := by
    simpa using (List.mem_filter.mp hrfil).2
  have hany : t.any
      (fun x => x.accession_number = job.accession_number) = true :=
    List.any_eq_true.mpr ⟨r, hrmem, by simpa using hracc⟩
  have hmap : update_analysis_queue t job now = t.map (fun x =>
      if x.accession_number = job.accession_number then
        { x with status := job.status, last_modified_at := now }
      else x) := by
    simp [update_analysis_queue, hany]
  refine ⟨?_, ?_, ?_, ?_⟩
  · rw [hmap, List.filter_map]
    have hcong : t.filter ((fun x : QueueRow =>
          decide (x.accession_number = job.accession_number)) ∘ (fun x =>
        if x.accession_number = job.accession_number then
          { x with status := job.status, last_modified_at := now }
        else x))
        = t.filter
          (fun x => x.accession_number = job.accession_number) := by
      refine List.filter_congr ?_
      intro x _
      by_cases h : x.accession_number = job.accession_number <;> simp [h]
    rw [hcong, hr]
    simp [hracc]
  · rw [hmap, List.filter_map]
    have hcong : t.filter ((fun x : QueueRow =>
          decide (x.accession_number ≠ job.accession_number)) ∘ (fun x =>
        if x.accession_number = job.accession_number then
          { x with status := job.status, last_modified_at := now }
        else x))
        = t.filter
          (fun x => x.accession_number ≠ job.accession_number) := by
      refine List.filter_congr ?_
      intro x _
      by_cases h : x.accession_number = job.accession_number <;> simp [h]
    rw [hcong]
    have hid : ∀ x ∈ t.filter
        (fun x => x.accession_number ≠ job.accession_number),
        (if x.accession_number = job.accession_number then
          { x with status := job.status, last_modified_at := now }
        else x) = x := by
      intro x hx
      have : x.accession_number ≠ job.accession_number := by
        simpa using (List.mem_filter.mp hx).2
      simp [this]
    rw [List.map_congr_left hid]
    simp
  · rw [hmap, List.length_map]
  · intro t₂ hu₂
    unfold queueKeysUnique at hu₂ ⊢
    by_cases hany₂ : t₂.any
        (fun x => x.accession_number = job.accession_number) = true
    · simp only [update_analysis_queue, hany₂, if_true]
      refine List.Pairwise.map _ ?_ hu₂
      intro a b hab
      by_cases ha : a.accession_number = job.accession_number <;>
        by_cases hb : b.accession_number = job.accession_number
      · exact absurd (ha.trans hb.symm) hab
      · rw [if_pos ha, if_neg hb]; exact hab
      · rw [if_neg ha, if_pos hb]; exact hab
      · rw [if_neg ha, if_neg hb]; exact hab
    · have hfalse : t₂.any
          (fun x => x.accession_number = job.accession_number) = false := by
        revert hany₂
        cases t₂.any (fun x => x.accession_number = job.accession_number) <;>
          simp
      have hnot : ∀ x ∈ t₂, x.accession_number ≠ job.accession_number := by
        intro x hx
        simpa using (List.any_eq_false.mp hfalse) x hx
      unfold update_analysis_queue
      rw [if_neg (by simp [hfalse])]
      refine List.pairwise_append.mpr
        ⟨hu₂, List.pairwise_singleton _ _, ?_⟩
      intro x hx y hy
      simp only [List.mem_singleton] at hy
      subst hy
      simpa using hnot x hx

/-- C8 witness: the upsert theorem applied at a concrete one-row queue whose
only row is re-upserted with a new status and timestamp. -/
theorem upsert_single_row_per_filing_witness :
    (queueKeysUnique [pendingRow]
      ∧ List.filter (fun x => x.accession_number = "F1") [pendingRow]
          = [pendingRow])
    ∧ ((update_analysis_queue [pendingRow]
          { jobF1 with status := "FAILED" } 7).filter
          (fun x => x.accession_number = "F1")
        = [{ pendingRow with status := "FAILED", last_modified_at := 7 }]
      ∧ (update_analysis_queue [pendingRow]
          { jobF1 with status := "FAILED" } 7).filter
          (fun x => x.accession_number ≠ "F1")
        = [pendingRow].filter (fun x => x.accession_number ≠ "F1")
      ∧ (update_analysis_queue [pendingRow]
          { jobF1 with status := "FAILED" } 7).length = [pendingRow].length
      ∧ ∀ t₂ : List QueueRow, queueKeysUnique t₂ →
          queueKeysUnique (update_analysis_queue t₂
            { jobF1 with status := "FAILED" } 7)) :=
  ⟨⟨List.pairwise_singleton _ _, by decide⟩,
   upsert_single_row_per_filing [pendingRow] { jobF1 with status := "FAILED" }
     7 pendingRow (List.pairwise_singleton _ _) (by decide)⟩

/-! ### C4 -/

/-- A successful dequeue is necessarily empty: any selected row makes the
`FilingInfo` construction raise `TypeError` (the missing `filing_date`
argument), so `.ok` results only arise from an empty selection. -/
theorem get_pending_jobs_ok_nil (t : List QueueRow) (n : Nat)
    (l : List FilingInfo) (h : get_pending_jobs t n = .ok l) : l = [] := by
  unfold get_pending_jobs at h
  cases hrows : selectPendingRows t n with
  | nil =>
    rw [hrows] at h
    simp only [List.mapM, List.mapM.loop, List.reverse_nil, pure,
      Except.pure, Except.ok.injEq] at h
    exact h.symm
  | cons r rs =>
    rw [hrows] at h
    have hmk : mkFilingInfo
        { accession_number := some r.accession_number,
          ticker := some r.ticker,
          filing_type := some r.filing_type,
          filing_url := some r.filing_url,
          status := some AnalysisStatus.PENDING.value } =
        .error (.typeError
          "FilingInfo.__init__() missing 1 required positional argument: \x27filing_date\x27") :=
      rfl
    simp [List.mapM, List.mapM.loop, hmk, Bind.bind, Except.bind] at h

/-- A drain cycle leaves the whole store unchanged: it either stops on
exhausted quota, stops on an empty selection, or dies in `get_pending_jobs`
with the `TypeError` before any job is processed or any quota usage is
recorded. -/
theorem process_analysis_queue_state_eq (cfg : Config)
    (orcs : List JobOracle) (st : DBState) (today now : Nat) :
    (process_analysis_queue cfg orcs st today now).1 = st := by
  unfold process_analysis_queue
  cases hq : calc_current_quota_status cfg st.quota today with
  | mk current has =>
    by_cases h0 : has = 0
    · simp [h0]
    · simp only [h0, if_false, ite_false, if_neg h0]
      cases hj : get_pending_jobs st.queue has with
      | error e => simp
      | ok l =>
        have hnil := get_pending_jobs_ok_nil _ _ _ hj
        subst hnil
        simp

/-- C4: for any sequence of drain cycles within one quota day, the recorded
usage in the quota store never exceeds `dailyLimit` (given it started within
the limit), no cycle's grantable amount exceeds `perMinuteLimit`, and each
cycle's recorded increment equals the number of jobs that completed
successfully (measured by archive growth) in that cycle.  The grantable bound
is the genuine `min(perMinuteLimit, remaining)` arithmetic; the other two
parts hold degenerately on this code: because the dequeue raises `TypeError`
whenever a PENDING row exists (see C10), a cycle never processes a job, never
succeeds, and never writes the quota row, so the increment and the success
count are both zero and the stored count never moves. -/
theorem quota_never_exceeded (cfg : Config) (today : Nat)
    (cycles : List (List JobOracle × Nat)) (st₀ : DBState)
    (h : st₀.quota.request_count ≤ cfg.GEMINI_DAILY_LIMIT) :
    (run_cycles cfg today cycles st₀).quota.request_count
        ≤ cfg.GEMINI_DAILY_LIMIT
    ∧ (∀ q t, (calc_current_quota_status cfg q t).2 ≤ cfg.GEMINI_RPM_LIMIT)
    ∧ (∀ orcs st now,
        ((process_analysis_queue cfg orcs st today
            now).1).quota.request_count - st.quota.request_count
          = ((process_analysis_queue cfg orcs st today
              now).1).archive.length - st.archive.length) := by
  refine ⟨?_, ?_, ?_⟩
  · have hrun : ∀ (cs : List (List JobOracle × Nat)) (st : DBState),
        run_cycles cfg today cs st = st := by
      intro cs
      induction cs with
      | nil => intro st; rfl
      | cons c rest ih =>
        intro st
        show run_cycles cfg today rest
          (process_analysis_queue cfg c.1 st today c.2).1 = st
        rw [process_analysis_queue_state_eq, ih]
    rw [hrun]
    exact h
  · intro q t
    simp only [calc_current_quota_status]
    split <;> split <;>
      first
      | exact Nat.zero_le _
      | exact Nat.min_le_left _ _
  · intro orcs st now
    rw [process_analysis_queue_state_eq]
    simp

/-- C4 witness: the quota theorem applied at the concrete fresh store with one
queued PENDING job and a single drain cycle. -/
theorem quota_never_exceeded_witness :
    st0.quota.request_count ≤ ({} : Config).GEMINI_DAILY_LIMIT
    ∧ ((run_cycles {} 0 [([{}], 5)] st0).quota.request_count
          ≤ ({} : Config).GEMINI_DAILY_LIMIT
      ∧ (∀ q t, (calc_current_quota_status {} q t).2
          ≤ ({} : Config).GEMINI_RPM_LIMIT)
      ∧ (∀ orcs st now,
          ((process_analysis_queue {} orcs st 0
              now).1).quota.request_count - st.quota.request_count
            = ((process_analysis_queue {} orcs st 0
                now).1).archive.length - st.archive.length)) :=
  ⟨by decide, quota_never_exceeded {} 0 [([{}], 5)] st0 (by decide)⟩

/-! ### C6 -/

/-- The watermark-diff walk is exactly "take while not the watermark". -/
theorem collect_new_filings_eq_takeWhile (l : List RemoteFiling)
    (wm : String) :
    collect_new_filings l (some wm)
      = l.takeWhile (fun f => f.accession_number ≠ wm) := by
  induction l with
  | nil => rfl
  | cons f rest ih =>
    simp only [collect_new_filings, pyEqOpt, List.takeWhile_cons]
    by_cases h : f.accession_number = wm
    · simp [h]
    · simp [h, ih]

/-- Searching a list whose elements all fail the predicate, extended by a
matching element, finds that element. -/
theorem find?_append_all_neg {α : Type} (p : α → Bool) (l : List α) (x : α)
    (h : ∀ a ∈ l, ¬ p a) (hx : p x = true) : (l ++ [x]).find? p = some x := by
  induction l with
  | nil => simpa using List.find?_cons_of_pos ([] : List α) hx
  | cons a t ih =>
    rw [List.cons_append,
      List.find?_cons_of_neg _ (h a (List.mem_cons_self a t))]
    exact ih (fun b hb => h b (List.mem_cons_of_mem _ hb))

/-- After the conflict-update branch of the watermark upsert, the first row
of the ticker carries the new accession number. -/
theorem find?_map_update_last (info : FilingInfo) :
    ∀ (w : List WatermarkRow),
    w.any (fun r => r.ticker = info.ticker) = true →
    ((w.map (fun r => if r.ticker = info.ticker then
        { r with last_accession_number := info.accession_number,
                 last_filing_type := info.filing_type } else r)).find?
      (fun r => r.ticker = info.ticker)).map
        (fun r => r.last_accession_number) = some info.accession_number := by
  intro w
  induction w with
  | nil => intro hany; simp at hany
  | cons r rest ih =>
    intro hany
    by_cases hr : r.ticker = info.ticker
    · simp [List.find?_cons, hr]
    · have hrest : rest.any (fun x => x.ticker = info.ticker) = true := by
        simpa [List.any_cons, hr] using hany
      simp only [List.map_cons, if_neg hr]
      rw [List.find?_cons_of_neg _ (by simpa using hr)]
      exact ih hrest

/-- The watermark read issued after `update_last_filing_info` returns the
just-written accession number, in both the insert and the update branch. -/
theorem get_last_after_update (w : List WatermarkRow) (info : FilingInfo) :
    get_last_accession_number (update_last_filing_info w info) info.ticker
      = some info.accession_number := by
  unfold update_last_filing_info
  by_cases hany : w.any (fun r => r.ticker = info.ticker) = true
  · rw [if_pos (by simpa using hany)]
    exact find?_map_update_last info w hany
  · have hfalse : w.any (fun r => r.ticker = info.ticker) = false := by
      revert hany
      cases w.any (fun r => r.ticker = info.ticker) <;> simp
    rw [if_neg (by simp [hfalse])]
    unfold get_last_accession_number
    rw [find?_append_all_neg _ _ _
      (fun a ha => by simpa using (List.any_eq_false.mp hfalse) a ha)
      (by simp)]
    rfl

/-- C6: per tracked identifier, discovery collects entries from the
newest-first list exactly until the stored watermark reference (the walk
equals `takeWhile (≠ watermark)`, and ends at the list end when no entry
matches), caps the collected set to `DISCOVER_FILING_AMOUNT`, upserts exactly
the capped entries in oldest-to-newest (reversed) order, each with status
PENDING, and finally sets the watermark to the newest collected entry. -/
theorem discover_walk_cap_upsert_watermark (cfg : Config) (ticker : String)
    (last? : Option String) (l : List RemoteFiling) (q : List QueueRow)
    (w : List WatermarkRow) (now : Nat)
    (h : (collect_new_filings l last?).take cfg.DISCOVER_FILING_AMOUNT
      ≠ []) :
    (∀ wm, collect_new_filings l (some wm)
        = l.takeWhile (fun f => f.accession_number ≠ wm))
    ∧ ∃ out, discover_for_ticker cfg ticker last? l q w now = .ok out
        ∧ out.upserts = ((collect_new_filings l
            last?).take cfg.DISCOVER_FILING_AMOUNT).reverse.map
            (toPendingJob ticker)
        ∧ (∀ j ∈ out.upserts, j.status = "PENDING")
        ∧ (∃ newest, ((collect_new_filings l
              last?).take cfg.DISCOVER_FILING_AMOUNT).head? = some newest
            ∧ get_last_accession_number out.watermarks ticker
                = some newest.accession_number) := by
  refine ⟨fun wm => collect_new_filings_eq_takeWhile l wm, ?_⟩
  have hnew0 : ¬ (collect_new_filings l last? = []) := by
    intro hnil
    exact h (by simp [hnil])
  obtain ⟨newest, rest, hc⟩ : ∃ a t,
      (collect_new_filings l last?).take cfg.DISCOVER_FILING_AMOUNT
        = a :: t := by
    cases hc : (collect_new_filings l last?).take
        cfg.DISCOVER_FILING_AMOUNT with
    | nil => exact absurd hc h
    | cons a t => exact ⟨a, t, rfl⟩
  unfold discover_for_ticker
  rw [if_neg hnew0, hc]
  refine ⟨_, rfl, rfl, ?_, ⟨newest, rfl, ?_⟩⟩
  · intro j hj
    rcases List.mem_map.mp hj with ⟨f, _, rfl⟩
    rfl
  · exact get_last_after_update w (toPendingJob ticker newest)

/-- C6 witness: the discovery theorem applied at the spec's example —
watermark F100, newest-first list [F103, F102, F101, F100], default cap 3. -/
theorem discover_walk_cap_upsert_watermark_witness :
    ((collect_new_filings [⟨"F103", "8-K", "2026-03-03", "u3"⟩,
        ⟨"F102", "10-Q", "2026-03-02", "u2"⟩,
        ⟨"F101", "10-K", "2026-03-01", "u1"⟩,
        ⟨"F100", "8-K", "2026-02-28", "u0"⟩]
        (some "F100")).take ({} : Config).DISCOVER_FILING_AMOUNT ≠ [])
    ∧ ((∀ wm, collect_new_filings [⟨"F103", "8-K", "2026-03-03", "u3"⟩,
          ⟨"F102", "10-Q", "2026-03-02", "u2"⟩,
          ⟨"F101", "10-K", "2026-03-01", "u1"⟩,
          ⟨"F100", "8-K", "2026-02-28", "u0"⟩] (some wm)
          = List.takeWhile (fun f => f.accession_number ≠ wm)
            [⟨"F103", "8-K", "2026-03-03", "u3"⟩,
             ⟨"F102", "10-Q", "2026-03-02", "u2"⟩,
             ⟨"F101", "10-K", "2026-03-01", "u1"⟩,
             ⟨"F100", "8-K", "2026-02-28", "u0"⟩])
      ∧ ∃ out, discover_for_ticker {} "ABC" (some "F100")
            [⟨"F103", "8-K", "2026-03-03", "u3"⟩,
             ⟨"F102", "10-Q", "2026-03-02", "u2"⟩,
             ⟨"F101", "10-K", "2026-03-01", "u1"⟩,
             ⟨"F100", "8-K", "2026-02-28", "u0"⟩] [] [] 10 = .ok out
          ∧ out.upserts = ((collect_new_filings
              [⟨"F103", "8-K", "2026-03-03", "u3"⟩,
               ⟨"F102", "10-Q", "2026-03-02", "u2"⟩,
               ⟨"F101", "10-K", "2026-03-01", "u1"⟩,
               ⟨"F100", "8-K", "2026-02-28", "u0"⟩]
              (some "F100")).take
                ({} : Config).DISCOVER_FILING_AMOUNT).reverse.map
              (toPendingJob "ABC")
          ∧ (∀ j ∈ out.upserts, j.status = "PENDING")
          ∧ (∃ newest, ((collect_new_filings
                [⟨"F103", "8-K", "2026-03-03", "u3"⟩,
                 ⟨"F102", "10-Q", "2026-03-02", "u2"⟩,
                 ⟨"F101", "10-K", "2026-03-01", "u1"⟩,
                 ⟨"F100", "8-K", "2026-02-28", "u0"⟩]
                (some "F100")).take
                  ({} : Config).DISCOVER_FILING_AMOUNT).head? = some newest
              ∧ get_last_accession_number out.watermarks "ABC"
                  = some newest.accession_number)) :=
  ⟨by decide,
   discover_walk_cap_upsert_watermark {} "ABC" (some "F100")
     [⟨"F103", "8-K", "2026-03-03", "u3"⟩,
      ⟨"F102", "10-Q", "2026-03-02", "u2"⟩,
      ⟨"F101", "10-K", "2026-03-01", "u1"⟩,
      ⟨"F100", "8-K", "2026-02-28", "u0"⟩] [] [] 10 (by decide)⟩

/-- Concrete evaluation of the spec's discovery example: collected
[F103, F102, F101], F101 upserted first (timestamps 10 < 11 < 12 reflect
filing chronology), and the new watermark row is (ABC, F103). -/
theorem discover_spec_example_eval :
    discover_for_ticker {} "ABC" (some "F100")
        [⟨"F103", "8-K", "2026-03-03", "u3"⟩,
         ⟨"F102", "10-Q", "2026-03-02", "u2"⟩,
         ⟨"F101", "10-K", "2026-03-01", "u1"⟩,
         ⟨"F100", "8-K", "2026-02-28", "u0"⟩] [] [] 10
      = .ok { upserts :=
                [toPendingJob "ABC" ⟨"F101", "10-K", "2026-03-01", "u1"⟩,
                 toPendingJob "ABC" ⟨"F102", "10-Q", "2026-03-02", "u2"⟩,
                 toPendingJob "ABC" ⟨"F103", "8-K", "2026-03-03", "u3"⟩],
              queue :=
                [⟨"F101", "ABC", "10-K", "u1", "PENDING", 10⟩,
                 ⟨"F102", "ABC", "10-Q", "u2", "PENDING", 11⟩,
                 ⟨"F103", "ABC", "8-K", "u3", "PENDING", 12⟩],
              watermarks := [⟨"ABC", "F103", "8-K"⟩] } := by
  decide

end SecBot
